import Mathlib

/-!
Shallow embedding of `colorization/data/tiny_image_net.py` (class `TinyImageNet`).

Images are modelled by their numpy shape (the claims under scrutiny only
inspect shapes and error behaviour).  The filesystem seen by the class is
abstracted by `FS`: `isDir` models `os.path.isdir`, `listdir` models
`glob(os.path.join(path, '*'))`, and `imread` models `skimage.io.imread`
(decoding of an indexed file, assumed total here since decoding failures are
outside every claim).  Python exceptions are modelled by `Except PyError`.
-/

/-- Python exception outcomes that the embedded code can raise. -/
inductive PyError where
  | valueError (msg : String)
  | assertionError
  | attributeError
  | indexError
  | nameError (name : String)
deriving DecidableEq

/-- A decoded numpy array, abstracted to its shape. -/
structure Image where
  shape : List Nat
deriving DecidableEq

abbrev PathStr := String

/-- The filesystem environment of the class: directory test, glob listing and
image decoding (`os.path.isdir`, `glob`, `skimage.io.imread`). -/
structure FS where
  isDir : PathStr → Bool
  listdir : PathStr → List PathStr
  imread : PathStr → Image

/-- `TinyImageNet.IMAGE_SIZE_ACTUAL = 64`. -/
def IMAGE_SIZE_ACTUAL : Nat := 64

/-- `_is_rgb`: `len(image.shape) == 3 and image.shape[2] == 3`. -/
def is_rgb (image : Image) : Bool :=
  image.shape.length == 3 && image.shape.getD 2 0 == 3

/-- `_has_right_size`: `image.shape[0] == image.shape[1] == cls.IMAGE_SIZE_ACTUAL`
(a Python chained comparison). -/
def has_right_size (image : Image) : Bool :=
  image.shape.getD 0 0 == image.shape.getD 1 0 &&
    image.shape.getD 1 0 == IMAGE_SIZE_ACTUAL

/-- The `self._indices` dict, keyed by the three split names in insertion
order `train`, `val`, `test`. -/
structure Indices where
  train : List PathStr
  val : List PathStr
  test : List PathStr
deriving DecidableEq

/-- Dict lookup `self._indices[dataset]`.  The dataset name is validated at
construction, so the fallback branch is unreachable in any constructed
handle. -/
def Indices.get (idx : Indices) (dataset : String) : List PathStr :=
  if dataset = "train" then idx.train
  else if dataset = "val" then idx.val
  else idx.test

/-- The state of a constructed `TinyImageNet` handle (fields `_root`,
`_dataset`, `_image_size`, `image_dtype`, `limit`, `_indices`; the `transform`
constructor argument is never stored). -/
structure TinyImageNet where
  root : PathStr
  dataset : String
  image_size : Nat
  image_dtype : String
  limit : Option Nat
  indices : Indices
deriving DecidableEq

/-- `__len__`: `l = len(self._indices[self.dataset])`; return `l` when
`self.limit is None` else `min(self.limit, l)`. -/
def TinyImageNet.len (s : TinyImageNet) : Nat :=
  let l := (s.indices.get s.dataset).length
  match s.limit with
  | none => l
  | some m => min m l

/-- A Python `slice` object, as passed to `__getitem__`. -/
structure PySlice where
  start : Option Int
  stop : Option Int
  step : Option Int
deriving DecidableEq

/-- `slice.indices(length)` following CPython `PySlice_Unpack` and
`PySlice_AdjustIndices`: resolve defaults and clamp start/stop into range for
the given container length. -/
def PySlice.indicesOf (sl : PySlice) (length : Nat) : Except PyError (Int × Int × Int) :=
  let L : Int := length
  let step : Int := sl.step.getD 1
  if step = 0 then .error (.valueError "slice step cannot be zero")
  else
    let clamp : Int → Int := fun v =>
      if v < 0 then
        if v + L < 0 then (if step < 0 then -1 else 0) else v + L
      else if L ≤ v then (if step < 0 then L - 1 else L)
      else v
    let start := match sl.start with
      | none => if step < 0 then L - 1 else 0
      | some v => clamp v
    let stop := match sl.stop with
      | none => if step < 0 then -1 else L
      | some v => clamp v
    .ok (start, stop, step)

/-- `range(start, stop, step)` as the list of produced indices. -/
def pyRange (start stop step : Int) : List Int :=
  let count : Nat :=
    if 0 < step then ((stop - start).toNat + (step.toNat - 1)) / step.toNat
    else ((start - stop).toNat + ((-step).toNat - 1)) / (-step).toNat
  (List.range count).map fun i => start + step * (i : Int)

/-- Python list indexing with an integer: negative indices count from the end,
out-of-range indices raise `IndexError`. -/
def pyListGet {α : Type} (l : List α) (i : Int) : Except PyError α :=
  let j := if i < 0 then i + l.length else i
  if h : 0 ≤ j ∧ j < (l.length : Int) then
    .ok (l.get ⟨j.toNat, by omega⟩)
  else .error .indexError

/-- Modelled from the spec: the external resize collaborator
`colorization.util.image.resize` (its module is not part of the given
sources).  Per the spec it rescales to `size × size` preserving the channel
count. -/
def resize (image : Image) (size : Nat) : Image :=
  ⟨[size, size, image.shape.getD 2 0]⟩

/-- The scaling step of `_getitem` (lines 142-144): `if self.image_size !=
self.IMAGE_SIZE_ACTUAL: image_rgb = resize(image_rgb, self.IMAGE_SIZE_ACTUAL)`.
Note the source passes `IMAGE_SIZE_ACTUAL`, not `image_size`, as the target. -/
def TinyImageNet.scaled (s : TinyImageNet) (image_rgb : Image) : Image :=
  if s.image_size ≠ IMAGE_SIZE_ACTUAL then resize image_rgb IMAGE_SIZE_ACTUAL
  else image_rgb

/-- `_process_image`: its first statement is `image_lab = rgb_to_lab(image)`,
but no name `image` is in scope (the parameter is `image_rgb`, and no global
`image` exists), so CPython raises `NameError` before any conversion happens;
the rest of the body (which also references an undefined `imagelab`) is dead
code. -/
def TinyImageNet.process_image (_s : TinyImageNet) (_image_rgb : Image) :
    Except PyError Image :=
  .error (.nameError "image")

/-- `_getitem(index)`: look up the path, decode, assert the RGB/size
invariant, scale, convert. -/
def TinyImageNet.getitemOne (s : TinyImageNet) (fs : FS) (index : Int) :
    Except PyError (Image × PathStr) :=
  match pyListGet (s.indices.get s.dataset) index with
  | .error e => .error e
  | .ok image_path =>
    let image_rgb := fs.imread image_path
    if is_rgb image_rgb && has_right_size image_rgb then
      match s.process_image (s.scaled image_rgb) with
      | .error e => .error e
      | .ok image_lab => .ok (image_lab, image_path)
    else .error .assertionError

/-- The slice branch of `__getitem__`:
`r = range(*index.indices(len(self._indices[self.dataset])))` — the resolved
positions of a slice request.  Note the length passed to `indices` is the raw
index length of the active split. -/
def TinyImageNet.sliceRange (s : TinyImageNet) (sl : PySlice) :
    Except PyError (List Int) :=
  match sl.indicesOf (s.indices.get s.dataset).length with
  | .error e => .error e
  | .ok (start, stop, step) => .ok (pyRange start stop step)

/-- `__getitem__` on a slice: `[self._getitem(i) for i in r]`. -/
def TinyImageNet.getitemSlice (s : TinyImageNet) (fs : FS) (sl : PySlice) :
    Except PyError (List (Image × PathStr)) :=
  match s.sliceRange sl with
  | .error e => .error e
  | .ok r => r.mapM (s.getitemOne fs)

/-- `f.rsplit('.', 1)[0]` on the character list: everything before the last
dot, or the whole string when there is no dot. -/
def stripExt (cs : List Char) : List Char :=
  match cs.reverse.dropWhile (· ≠ '.') with
  | [] => cs
  | _ :: before => before.reverse

/-- Split a stem into its leading part and the trailing run of decimal
digits, as located by `re.search(r'\d+$', base)`. -/
def splitTrailingDigits (cs : List Char) : List Char × List Char :=
  let r := cs.reverse
  let digs := r.takeWhile Char.isDigit
  ((r.drop digs.length).reverse, digs.reverse)

/-- `int` on a string of decimal digits. -/
def digitsToNat (ds : List Char) : Nat :=
  ds.foldl (fun a c => a * 10 + (c.toNat - 48)) 0

/-- `parse_num` inside `_listdir`: strip the extension, split off the trailing
digit run, return `(base, int(num))`.  When the stem has no trailing digit,
`re.search` returns `None` and `.start()` raises `AttributeError`; that case
is `none` here. -/
def parse_num (f : String) : Option (List Char × Nat) :=
  let base := stripExt f.toList
  let (pre, digs) := splitTrailingDigits base
  if digs.isEmpty then none else some (pre, digitsToNat digs)

/-- Strict lexicographic comparison of character lists by code point, the
order Python uses on the string components of sort keys. -/
def lexLt : List Char → List Char → Bool
  | [], [] => false
  | [], _ :: _ => true
  | _ :: _, [] => false
  | a :: as, b :: bs => if a < b then true else if b < a then false else lexLt as bs

/-- Python tuple comparison `(base1, num1) <= (base2, num2)`: primarily the
raw base string, secondarily the numeric suffix. -/
def keyLe (k1 k2 : List Char × Nat) : Bool :=
  if lexLt k1.1 k2.1 then true
  else if lexLt k2.1 k1.1 then false
  else k1.2 ≤ k2.2

/-- Ordering of files under the `parse_num` key.  On the successful path of
`sortFilesNum` every key is `some`; the `none` branches are dead there and
only make the relation total everywhere. -/
def numLe (a b : String) : Prop :=
  (match parse_num a, parse_num b with
   | none, _ => true
   | some _, none => false
   | some k1, some k2 => keyLe k1 k2) = true

instance : DecidableRel numLe := fun a b => by unfold numLe; infer_instance

/-- `files.sort(key=parse_num)`: CPython first computes every key (raising
`AttributeError` if any stem lacks a trailing digit run), then stable-sorts
by the keys. -/
def sortFilesNum (files : List PathStr) : Except PyError (List PathStr) :=
  match files.mapM parse_num with
  | none => .error .attributeError
  | some _ => .ok (files.insertionSort numLe)

/-- Plain `files.sort()`: lexicographic string order. -/
def strLe (a b : String) : Prop := a ≤ b

instance : DecidableRel strLe := fun a b => by unfold strLe; infer_instance

/-- `os.path.join(a, b)` for the relative components this module joins. -/
def pjoin (a b : PathStr) : PathStr := a ++ "/" ++ b

/-- `_listdir(path, sort_num)`: glob the directory, then sort either by the
numeric-suffix key or plainly. -/
def listdir (fs : FS) (path : PathStr) (sort_num : Bool) :
    Except PyError (List PathStr) :=
  if sort_num then sortFilesNum (fs.listdir path)
  else .ok ((fs.listdir path).insertionSort strLe)

/-- The inner loop of `_build_index` for the train split: for each class
directory, list `dir/images` with numeric sorting and append. -/
def buildTrainIndex (fs : FS) : List PathStr → Except PyError (List PathStr)
  | [] => .ok []
  | d :: rest =>
    match listdir fs (pjoin d "images") true with
    | .error e => .error e
    | .ok inner =>
      match buildTrainIndex fs rest with
      | .error e => .error e
      | .ok restIdx => .ok (inner ++ restIdx)

/-- `_build_index(dataset)`: the train split walks class directories, the
other splits list `dataset/images` directly. -/
def build_index (fs : FS) (root : PathStr) (dataset : String) :
    Except PyError (List PathStr) :=
  let dataset_path := pjoin root dataset
  if dataset = "train" then
    match listdir fs dataset_path false with
    | .error e => .error e
    | .ok dirs => buildTrainIndex fs dirs
  else
    listdir fs (pjoin dataset_path "images") true

/-- `_build_indices`: build all three splits in declaration order. -/
def build_indices (fs : FS) (root : PathStr) : Except PyError Indices :=
  match build_index fs root "train" with
  | .error e => .error e
  | .ok t =>
    match build_index fs root "val" with
    | .error e => .error e
    | .ok v =>
      match build_index fs root "test" with
      | .error e => .error e
      | .ok w => .ok ⟨t, v, w⟩

/-- One split's pass of `_filter_non_rgb`: returns the rebuilt
`index_rgb_only` together with the paths handed to `os.remove` (empty unless
`purge`). -/
def filter_non_rgb_index (imread : PathStr → Image) (purge : Bool) :
    List PathStr → List PathStr × List PathStr
  | [] => ([], [])
  | p :: rest =>
    let r := filter_non_rgb_index imread purge rest
    if is_rgb (imread p) then (p :: r.1, r.2)
    else (r.1, if purge then p :: r.2 else r.2)

/-- `_filter_non_rgb(purge)`: applied to every split of the dict, whatever
the active split; second component collects every removed file. -/
def filter_non_rgb (imread : PathStr → Image) (purge : Bool) (idx : Indices) :
    Indices × List PathStr :=
  let t := filter_non_rgb_index imread purge idx.train
  let v := filter_non_rgb_index imread purge idx.val
  let w := filter_non_rgb_index imread purge idx.test
  (⟨t.1, v.1, w.1⟩, t.2 ++ v.2 ++ w.2)

/-- `_clean(clean)`: dispatch on the cleaning mode; anything other than
`skip`, `purge`, `assume` is a `ValueError`. -/
def clean (imread : PathStr → Image) (mode : String) (idx : Indices) :
    Except PyError (Indices × List PathStr) :=
  if mode = "skip" then .ok (filter_non_rgb imread false idx)
  else if mode = "purge" then .ok (filter_non_rgb imread true idx)
  else if mode ≠ "assume" then .error (.valueError "invalid cleaning procedure")
  else .ok (idx, [])

/-- The three legal dataset names, in the order checked by the setter. -/
def validDatasets : List String := ["train", "val", "test"]

/-- The three legal cleaning modes. -/
def validCleanModes : List String := ["assume", "skip", "purge"]

/-- `__init__`: run the `root`, `dataset` and `image_size` setters (each may
raise), store `image_dtype` and `limit`, build the indices, then clean.
Returns the constructed state together with the list of files removed by a
purge.  The `transform` argument mirrors the constructor signature; the body
never consults it. -/
def init {τ : Type} (fs : FS) (root : PathStr) (dataset : String)
    (image_size : Nat) (image_dtype : String) (limit : Option Nat)
    (cleanMode : String) (transform : τ) :
    Except PyError (TinyImageNet × List PathStr) :=
  if fs.isDir root = false then
    .error (.valueError ("not a directory: " ++ root))
  else if dataset ∉ validDatasets then
    .error (.valueError ("dataset must be either of train, val, test"))
  else if image_size < IMAGE_SIZE_ACTUAL then
    .error .assertionError
  else
    match build_indices fs root with
    | .error e => .error e
    | .ok idx =>
      match clean fs.imread cleanMode idx with
      | .error e => .error e
      | .ok cr =>
        .ok (⟨root, dataset, image_size, image_dtype, limit, cr.1⟩, cr.2)

/-- The construction-time configuration errors of the claims: `ValueError`
from the `root`/`dataset` setters or `_clean`, and the `AssertionError` of the
`image_size` setter.  (`AttributeError`, the only other error construction
can raise, comes from `parse_num` inside index building.) -/
def isConfigError : PyError → Bool
  | .valueError _ => true
  | .assertionError => true
  | _ => false

/-! Concrete fixtures used by the closed theorems and witnesses below. -/

/-- A filesystem whose every file decodes to a valid 64×64 RGB image. -/
def fsRGB : FS := ⟨fun _ => true, fun _ => [], fun _ => ⟨[64, 64, 3]⟩⟩

/-- A handle over the `val` split with one indexed item and default size. -/
def stOne : TinyImageNet :=
  ⟨"root", "val", 64, "float32", none, ⟨[], ["root/val/images/img_0.png"], []⟩⟩

/-- The same handle with `image_size = 128`. -/
def stBig : TinyImageNet := { stOne with image_size := 128 }

/-- A filesystem whose every file decodes to a 128×128 RGB image. -/
def fsBig : FS := ⟨fun _ => true, fun _ => [], fun _ => ⟨[128, 128, 3]⟩⟩

/-- A handle with five indexed items in the active split and `limit = 4`. -/
def stLim : TinyImageNet :=
  ⟨"root", "val", 64, "float32", some 4, ⟨[], ["a", "b", "c", "d", "e"], []⟩⟩

/-! Claim theorems. -/

/-- C1.  The claim says `get(i)` on a valid item returns the Lab-converted,
dtype-cast, channel-first array with the indexed path.  It does not: on a
handle whose item decodes to a valid 64×64×3 RGB image, retrieval reaches
`_process_image`, whose body references the undefined name `image`, so the
call raises `NameError` instead of returning a pair. -/
theorem getitem_raises_name_error :
    stOne.getitemOne fsRGB 0 = .error (.nameError "image") := by
  rfl

/-- C2.  The claim says that with `targetImageSize = 128` the decoded 64×64×3
array is resized so its spatial dimensions equal 128.  The source instead
calls `resize(image_rgb, self.IMAGE_SIZE_ACTUAL)`, so the scaled array keeps
shape `[64, 64, 3]`, contradicting the claim (and the adjacent source comment
about scaling to the desired size). -/
theorem scaling_targets_native_size :
    stBig.image_size = 128 ∧
    (stBig.scaled ⟨[64, 64, 3]⟩).shape = [64, 64, 3] ∧
    ([64, 64, 3] : List Nat) ≠ [128, 128, 3] := by
  refine ⟨rfl, rfl, by decide⟩

/-- C4.  `len()` returns `min(itemLimit, |splitIndex[activeSplit]|)` when the
limit is set, and exactly the active split's index length otherwise. -/
theorem len_contract :
    ∀ (s : TinyImageNet),
      (∀ m, s.limit = some m →
        s.len = min m (s.indices.get s.dataset).length) ∧
      (s.limit = none → s.len = (s.indices.get s.dataset).length) := by
  intro s
  constructor
  · intro m hm
    simp [TinyImageNet.len, hm]
  · intro hm
    simp [TinyImageNet.len, hm]

/-- Witness for C4: a handle with `limit = 4` over a five-item split. -/
theorem len_contract_witness :
    stLim.len = min 4 (stLim.indices.get stLim.dataset).length :=
  (len_contract stLim).1 4 rfl

/-- The skip pass over one split keeps exactly the RGB entries, in order, and
removes nothing. -/
theorem filter_non_rgb_index_skip (imread : PathStr → Image) :
    ∀ l, filter_non_rgb_index imread false l =
      (l.filter (fun p => is_rgb (imread p)), []) := by
  intro l
  induction l with
  | nil => rfl
  | cons p rest ih =>
    simp only [filter_non_rgb_index, ih, List.filter_cons]
    by_cases h : is_rgb (imread p) <;> simp [h]

/-- The purge pass over one split keeps exactly the RGB entries, in order, and
removes exactly the non-RGB entries, in order. -/
theorem filter_non_rgb_index_purge (imread : PathStr → Image) :
    ∀ l, filter_non_rgb_index imread true l =
      (l.filter (fun p => is_rgb (imread p)),
       l.filter (fun p => !is_rgb (imread p))) := by
  intro l
  induction l with
  | nil => rfl
  | cons p rest ih =>
    simp only [filter_non_rgb_index, ih, List.filter_cons]
    by_cases h : is_rgb (imread p) <;> simp [h]

/-- C6.  Cleaning in `skip` mode rebuilds every split's index as the
subsequence of entries whose decoded array is RGB (`List.filter` preserves
relative order), for all three splits at once, and removes no file. -/
theorem skip_filters_all_splits :
    ∀ (imread : PathStr → Image) (idx : Indices),
      clean imread "skip" idx =
        .ok (⟨idx.train.filter (fun p => is_rgb (imread p)),
              idx.val.filter (fun p => is_rgb (imread p)),
              idx.test.filter (fun p => is_rgb (imread p))⟩, []) := by
  intro imread idx
  simp [clean, filter_non_rgb, filter_non_rgb_index_skip]

/-- C10.  `init` never consults its `transform` argument, so construction
(and hence the state every length query and retrieval reads) is identical for
any two transform values, even of different types. -/
theorem transform_has_no_effect :
    ∀ {τ₁ τ₂ : Type} (fs : FS) (root dataset : String) (image_size : Nat)
      (image_dtype : String) (limit : Option Nat) (cleanMode : String)
      (t₁ : τ₁) (t₂ : τ₂),
      init fs root dataset image_size image_dtype limit cleanMode t₁ =
        init fs root dataset image_size image_dtype limit cleanMode t₂ := by
  intro τ₁ τ₂ fs root dataset image_size image_dtype limit cleanMode t₁ t₂
  rfl

/-- A filesystem listing the files of the C8 sorting example. -/
def fsNum : FS :=
  ⟨fun _ => true, fun _ => ["img_2.png", "img_10.png", "img_1.png"],
   fun _ => ⟨[64, 64, 3]⟩⟩

/-- C8.  Numeric-suffix listing: the key of `img_10.png` strips the extension
and splits the stem into the raw leading string and the integer value of the
trailing digit run, and sorting the example files yields the numeric (not
lexicographic) order. -/
theorem numeric_sort_order :
    parse_num "img_2.png" = some ("img_".toList, 2) ∧
    parse_num "img_10.png" = some ("img_".toList, 10) ∧
    listdir fsNum "d" true = .ok ["img_1.png", "img_2.png", "img_10.png"] := by
  refine ⟨rfl, rfl, rfl⟩

/-- C3, counterexample.  The claim says slice resolution uses the bounded
length `min(itemLimit, raw)`, so `handle[2:5]` with `itemLimit = 4` resolves
to at most 2 positions, all below 4.  On a five-item split with `limit = 4`
the source resolves the slice against the raw length 5: three positions,
including position 4. -/
theorem slice_limit_counterexample :
    stLim.limit = some 4 ∧
    stLim.sliceRange ⟨some 2, some 5, none⟩ = .ok [2, 3, 4] ∧
    ¬ (([2, 3, 4] : List Int).length ≤ 2) ∧
    ¬ (∀ i ∈ ([2, 3, 4] : List Int), i < 4) := by
  refine ⟨rfl, rfl, by decide, by decide⟩

/-- C3, amended.  Slice resolution uses the raw index length of the active
split, so every position below the raw length is resolvable even when it lies
at or beyond the limit: whenever `limit = some m` and `m` is below the raw
length, the slice `m : m + 1` resolves to exactly position `m`, which is not
below `len()`. -/
theorem slice_resolution_uses_raw_length :
    ∀ (s : TinyImageNet) (m : Nat), s.limit = some m →
      (m : Int) < ((s.indices.get s.dataset).length : Int) →
      s.sliceRange ⟨some (m : Int), some ((m : Int) + 1), none⟩ =
        .ok [(m : Int)] ∧
      s.len ≤ m := by
  intro s m hlim hm
  constructor
  · unfold TinyImageNet.sliceRange PySlice.indicesOf
    dsimp only
    set L : Int := ((s.indices.get s.dataset).length : Int) with hL
    have h0 : ¬ ((1 : Int) = 0) := by norm_num
    have hmnn : ¬ ((m : Int) < 0) := by omega
    have hm1 : ¬ ((m : Int) + 1 < 0) := by omega
    have hnotle : ¬ (L ≤ (m : Int)) := not_le.mpr hm
    simp only [Option.getD, h0, if_false, if_neg hmnn, if_neg hm1,
      if_neg hnotle]
    have hstop : (if L ≤ (m : Int) + 1 then (if (1 : Int) < 0 then L - 1 else L)
        else ((m : Int) + 1)) = (m : Int) + 1 := by
      by_cases hle : L ≤ (m : Int) + 1
      · rw [if_pos hle, if_neg (by norm_num)]
        omega
      · rw [if_neg hle]
    rw [hstop]
    have hrange : pyRange (m : Int) ((m : Int) + 1) 1 = [(m : Int)] := by
      unfold pyRange
      norm_num
      rfl
    simp [hrange]
  · simp only [TinyImageNet.len, hlim]
    exact Nat.min_le_left _ _

/-- Witness for the amended C3: on the five-item, `limit = 4` handle the
slice `4:5` resolves to position 4. -/
theorem slice_resolution_uses_raw_length_witness :
    stLim.sliceRange ⟨some 4, some 5, none⟩ = .ok [4] ∧ stLim.len ≤ 4 :=
  slice_resolution_uses_raw_length stLim 4 rfl (by decide)

/-- C5.  Whatever the handle's configuration (any `image_size`, any indices —
cleaning mode is not even part of the retrieval-time state), `_getitem`
raises `AssertionError` whenever the decoded image at the indexed path fails
the conjunction of the RGB predicate and the fixed-native-size predicate, and
returns nothing. -/
theorem getitem_asserts_on_bad_image :
    ∀ (s : TinyImageNet) (fs : FS) (i : Int) (p : PathStr),
      pyListGet (s.indices.get s.dataset) i = .ok p →
      (is_rgb (fs.imread p) && has_right_size (fs.imread p)) = false →
      s.getitemOne fs i = .error .assertionError := by
  intro s fs i p h1 h2
  unfold TinyImageNet.getitemOne
  rw [h1]
  simp [h2]

/-- Witness for C5: a handle with `targetImageSize = 128` over a filesystem
of 128×128×3 images — square and RGB, but not of the native size 64, so the
size check (which compares against 64, not against `image_size = 128`)
fails the assertion. -/
theorem getitem_asserts_on_bad_image_witness :
    stBig.getitemOne fsBig 0 = .error .assertionError :=
  getitem_asserts_on_bad_image stBig fsBig 0 "root/val/images/img_0.png"
    rfl rfl

/-- C7.  Cleaning in `purge` mode rebuilds every split's index exactly as
`skip` mode does, removes from storage exactly the rejected entries of every
split, and removes no path that any rebuilt index retains. -/
theorem purge_filters_and_removes :
    ∀ (imread : PathStr → Image) (idx : Indices),
      clean imread "purge" idx =
        .ok (⟨idx.train.filter (fun p => is_rgb (imread p)),
              idx.val.filter (fun p => is_rgb (imread p)),
              idx.test.filter (fun p => is_rgb (imread p))⟩,
             idx.train.filter (fun p => !is_rgb (imread p)) ++
               idx.val.filter (fun p => !is_rgb (imread p)) ++
               idx.test.filter (fun p => !is_rgb (imread p))) ∧
      ∀ p, p ∈ idx.train.filter (fun p => !is_rgb (imread p)) ++
              idx.val.filter (fun p => !is_rgb (imread p)) ++
              idx.test.filter (fun p => !is_rgb (imread p)) →
        p ∉ idx.train.filter (fun p => is_rgb (imread p)) ∧
        p ∉ idx.val.filter (fun p => is_rgb (imread p)) ∧
        p ∉ idx.test.filter (fun p => is_rgb (imread p)) := by
  intro imread idx
  constructor
  · simp [clean, filter_non_rgb, filter_non_rgb_index_purge]
  · intro p hp
    have hbad : is_rgb (imread p) = false := by
      simp only [List.mem_append, List.mem_filter] at hp
      rcases hp with (⟨_, h⟩ | ⟨_, h⟩) | ⟨_, h⟩ <;>
        simpa using h
    refine ⟨?_, ?_, ?_⟩ <;>
      · intro hmem
        rw [List.mem_filter] at hmem
        rw [hmem.2] at hbad
        simp at hbad

/-- A filesystem where exactly `gray.png` decodes to a single-channel image. -/
def fsGray : FS :=
  ⟨fun _ => true, fun _ => [],
   fun p => if p = "gray.png" then ⟨[64, 64]⟩ else ⟨[64, 64, 3]⟩⟩

/-- An index whose `val` split holds one grayscale and two RGB entries. -/
def idxGray : Indices := ⟨[], ["img_1.png", "gray.png", "img_2.png"], []⟩

/-- Witness for C7: on the one-grayscale/two-RGB split, the purged file
`gray.png` is retained by no rebuilt index. -/
theorem purge_filters_and_removes_witness :
    "gray.png" ∉ idxGray.train.filter (fun p => is_rgb (fsGray.imread p)) ∧
    "gray.png" ∉ idxGray.val.filter (fun p => is_rgb (fsGray.imread p)) ∧
    "gray.png" ∉ idxGray.test.filter (fun p => is_rgb (fsGray.imread p)) :=
  (purge_filters_and_removes fsGray.imread idxGray).2 "gray.png" (by decide)

/-- The only error `sortFilesNum` raises is the `AttributeError` of a stem
with no trailing digit run. -/
theorem sortFilesNum_error {files : List PathStr} {e : PyError}
    (h : sortFilesNum files = .error e) : e = .attributeError := by
  unfold sortFilesNum at h
  cases hm : files.mapM parse_num <;> rw [hm] at h <;> simp_all

/-- The only error `_listdir` raises is `AttributeError`. -/
theorem listdir_error {fs : FS} {p : PathStr} {b : Bool} {e : PyError}
    (h : listdir fs p b = .error e) : e = .attributeError := by
  unfold listdir at h
  cases b with
  | false => simp at h
  | true =>
    simp only [if_true] at h
    exact sortFilesNum_error h

/-- The only error the train-split walk raises is `AttributeError`. -/
theorem buildTrainIndex_error {fs : FS} {e : PyError} :
    ∀ {l : List PathStr}, buildTrainIndex fs l = .error e →
      e = .attributeError := by
  intro l
  induction l with
  | nil => intro h; simp [buildTrainIndex] at h
  | cons d rest ih =>
    intro h
    unfold buildTrainIndex at h
    cases h1 : listdir fs (pjoin d "images") true with
    | error e' =>
      rw [h1] at h
      simp at h
      rw [← h]
      exact listdir_error h1
    | ok inner =>
      rw [h1] at h
      cases h2 : buildTrainIndex fs rest with
      | error e' =>
        rw [h2] at h
        simp at h
        subst h
        exact ih h2
      | ok restIdx =>
        rw [h2] at h
        simp at h

/-- The only error `_build_index` raises is `AttributeError`. -/
theorem build_index_error {fs : FS} {root dataset : String} {e : PyError}
    (h : build_index fs root dataset = .error e) : e = .attributeError := by
  unfold build_index at h
  dsimp only at h
  by_cases hd : dataset = "train"
  · rw [if_pos hd] at h
    cases h1 : listdir fs (pjoin root dataset) false with
    | error e' =>
      rw [h1] at h
      simp at h
      rw [← h]
      exact listdir_error h1
    | ok dirs =>
      rw [h1] at h
      exact buildTrainIndex_error h
  · rw [if_neg hd] at h
    exact listdir_error h

/-- The only error `_build_indices` raises is `AttributeError`. -/
theorem build_indices_error {fs : FS} {root : String} {e : PyError}
    (h : build_indices fs root = .error e) : e = .attributeError := by
  unfold build_indices at h
  cases h1 : build_index fs root "train" with
  | error e' =>
    rw [h1] at h
    simp at h
    rw [← h]
    exact build_index_error h1
  | ok t =>
    rw [h1] at h
    cases h2 : build_index fs root "val" with
    | error e' =>
      rw [h2] at h
      simp at h
      rw [← h]
      exact build_index_error h2
    | ok v =>
      rw [h2] at h
      cases h3 : build_index fs root "test" with
      | error e' =>
        rw [h3] at h
        simp at h
        rw [← h]
        exact build_index_error h3
      | ok w =>
        rw [h3] at h
        simp at h

/-- `_clean` only raises when the mode is outside the three legal ones. -/
theorem clean_error {imread : PathStr → Image} {mode : String} {idx : Indices}
    {e : PyError} (h : clean imread mode idx = .error e) :
    mode ∉ validCleanModes := by
  unfold clean at h
  by_cases h1 : mode = "skip"
  · rw [if_pos h1] at h
    simp at h
  · rw [if_neg h1] at h
    by_cases h2 : mode = "purge"
    · rw [if_pos h2] at h
      simp at h
    · rw [if_neg h2] at h
      by_cases h3 : mode ≠ "assume"
      · simp only [validCleanModes, List.mem_cons, List.mem_singleton]
        push_neg
        exact ⟨h3, h1, h2, List.not_mem_nil _⟩
      · rw [if_neg h3] at h
        simp at h

/-- An illegal mode makes `_clean` raise its `ValueError`. -/
theorem clean_bad_mode {imread : PathStr → Image} {mode : String}
    {idx : Indices} (h : mode ∉ validCleanModes) :
    clean imread mode idx = .error (.valueError "invalid cleaning procedure") := by
  simp only [validCleanModes, List.mem_cons, List.not_mem_nil, or_false] at h
  push_neg at h
  obtain ⟨ha, hs, hp⟩ := h
  unfold clean
  rw [if_neg hs, if_neg hp, if_pos ha]

/-- C9.  Construction raises some error whenever the root is not a directory,
the split name is illegal, the target size is below 64, or the cleaning mode
is illegal; and when all four are legal, any error construction still raises
is not one of those configuration errors (it can only be the `AttributeError`
of index building). -/
theorem construction_error_contract :
    ∀ {τ : Type} (fs : FS) (root dataset : String) (image_size : Nat)
      (image_dtype : String) (limit : Option Nat) (cleanMode : String) (t : τ),
      ((fs.isDir root = false ∨ dataset ∉ validDatasets ∨
          image_size < IMAGE_SIZE_ACTUAL ∨ cleanMode ∉ validCleanModes) →
        ∃ e, init fs root dataset image_size image_dtype limit cleanMode t =
          .error e) ∧
      (fs.isDir root = true → dataset ∈ validDatasets →
        IMAGE_SIZE_ACTUAL ≤ image_size → cleanMode ∈ validCleanModes →
        ∀ e, init fs root dataset image_size image_dtype limit cleanMode t =
          .error e → isConfigError e = false) := by
  intro τ fs root dataset image_size image_dtype limit cleanMode t
  constructor
  · intro hbad
    unfold init
    by_cases h1 : fs.isDir root = false
    · rw [if_pos h1]
      exact ⟨_, rfl⟩
    rw [if_neg h1]
    by_cases h2 : dataset ∉ validDatasets
    · rw [if_pos h2]
      exact ⟨_, rfl⟩
    rw [if_neg h2]
    by_cases h3 : image_size < IMAGE_SIZE_ACTUAL
    · rw [if_pos h3]
      exact ⟨_, rfl⟩
    rw [if_neg h3]
    have h4 : cleanMode ∉ validCleanModes := by
      rcases hbad with h | h | h | h
      · exact absurd h h1
      · exact absurd h h2
      · exact absurd h h3
      · exact h
    cases hb : build_indices fs root with
    | error e => exact ⟨e, rfl⟩
    | ok idx =>
      refine ⟨PyError.valueError "invalid cleaning procedure", ?_⟩
      simp [clean_bad_mode h4]
  · intro h1 h2 h3 h4 e he
    unfold init at he
    rw [if_neg (by simp [h1]), if_neg (not_not_intro h2),
      if_neg (not_lt.mpr h3)] at he
    cases hb : build_indices fs root with
    | error e' =>
      rw [hb] at he
      simp at he
      subst he
      rw [build_indices_error hb]
      rfl
    | ok idx =>
      rw [hb] at he
      simp only [] at he
      cases hc : clean fs.imread cleanMode idx with
      | error e' => exact absurd h4 (clean_error hc)
      | ok cr =>
        simp only [hc] at he
        simp at he

/-- A filesystem whose directory test always fails. -/
def fsNoDir : FS := ⟨fun _ => false, fun _ => [], fun _ => ⟨[]⟩⟩

/-- Witness for C9: construction over a filesystem with no directories raises
an error even with every other argument legal. -/
theorem construction_error_contract_witness :
    ∃ e, init fsNoDir "nowhere" "train" 64 "float32" none "assume" () =
      .error e :=
  (construction_error_contract fsNoDir "nowhere" "train" 64 "float32" none
    "assume" ()).1 (Or.inl rfl)
